import Mathlib

/-!
# Verification of the `smooth-squircle` path generator and adaptive binder

A shallow embedding of the library's core (`src/squircle-path.ts`, `src/dom.ts`,
`src/web-component/index.ts`) in Lean 4.  JavaScript numbers are modelled as
exact rationals (`ℚ`); the path-building string concatenation is modelled as a
structured command list together with a rendering function that reproduces the
source's concatenation order, so that string-level and coordinate-level facts
can both be stated.  Environment primitives (``window``, ``CSS.supports``,
``ResizeObserver``, DOM node operations) are modelled as explicit parameters
and small state machines, following the source's control flow.
-/

namespace Squircle

/-! ## Number formatting

JavaScript renders a number as an optional sign, the decimal integer part and,
when nonzero, a fractional part after a dot.  On the exact rationals used here
this is modelled by `qToStr`, with fuel bounding the number of fractional
digits (all values produced by the library have denominators dividing a power
of ten, so the fuel is never exhausted on reachable values). -/

/-- The character for a single decimal digit `d < 10`. -/
def digitChar (d : Nat) : Char := Char.ofNat (48 + d % 10)

/-- Decimal digits of a natural number, most significant first (fuel-based). -/
def natChars : Nat → Nat → List Char
  | 0, _ => []
  | fuel + 1, n => if n < 10 then [digitChar n] else natChars fuel (n / 10) ++ [digitChar (n % 10)]

/-- Decimal string of a natural number. -/
def natStr (n : Nat) : String := String.mk (natChars (n + 1) n)

/-- Fractional decimal digits of `rem / den` (with `rem < den`), fuel-based. -/
def fracChars : Nat → Nat → Nat → List Char
  | 0, _, _ => []
  | _ + 1, 0, _ => []
  | fuel + 1, rem + 1, den =>
      digitChar ((rem + 1) * 10 / den) :: fracChars fuel ((rem + 1) * 10 % den) den

/-- JavaScript-style decimal rendering of a rational number. -/
def qToStr (q : ℚ) : String :=
  let sign := if q < 0 then "-" else ""
  let n := q.num.natAbs
  let d := q.den
  if n % d = 0 then sign ++ natStr (n / d)
  else sign ++ natStr (n / d) ++ "." ++ String.mk (fracChars 40 (n % d) d)

/-! ## Vector utilities (from `squircle-path.ts`) -/

/-- A 2D point/vector with rational coordinates. -/
abbrev Vec2 := ℚ × ℚ

/-- `vecAdd` from the source: componentwise sum. -/
def vecAdd (v1 v2 : Vec2) : Vec2 := (v1.1 + v2.1, v1.2 + v2.2)

/-- `vecMul` from the source: scale a vector by a scalar. -/
def vecMul (v : Vec2) (k : ℚ) : Vec2 := (v.1 * k, v.2 * k)

/-- Componentwise difference (used to state the corner-rotation relation). -/
def vecSub (v1 v2 : Vec2) : Vec2 := (v1.1 - v2.1, v1.2 - v2.2)

/-- `rotBy90` from the source: rotate a vector by `k` quarter turns,
switching on `k % 4` exactly as the source does. -/
def rotBy90 (v : Vec2) (k : Nat) : Vec2 :=
  match k % 4 with
  | 0 => (v.1, v.2)
  | 1 => (v.2, -v.1)
  | 2 => (-v.1, -v.2)
  | 3 => (-v.2, v.1)
  | _ + 4 => (v.1, v.2)

/-- `squircleBezierApproximation` from the source: three cubic Bezier segments
(two control points and a target each), as fractions of the effective radius. -/
def squircleBezierApproximation : List (Vec2 × Vec2 × Vec2) :=
  [((3/10, 0), (473/1000, 0), (619/1000, 39/1000)),
   ((804/1000, 88/1000), (912/1000, 196/1000), (961/1000, 381/1000)),
   ((1, 527/1000), (1, 7/10), (1, 1))]

/-! ## Path commands and the generator (`getSquirclePath`) -/

/-- One SVG path command as emitted by the generator. -/
inductive PathCmd where
  | move (p : Vec2)
  | line (p : Vec2)
  | curve (c1 c2 target : Vec2)
  deriving DecidableEq, Repr

/-- The three cubic curves of one corner: each table segment is rotated by
`k` quarter turns, scaled by the clamped radius and translated to the
corner's start point — exactly the loop body in `getSquirclePath`. -/
def cornerCurves (start : Vec2) (k : Nat) (r : ℚ) : List PathCmd :=
  squircleBezierApproximation.map fun seg =>
    PathCmd.curve (vecAdd start (vecMul (rotBy90 seg.1 k) r))
      (vecAdd start (vecMul (rotBy90 seg.2.1 k) r))
      (vecAdd start (vecMul (rotBy90 seg.2.2 k) r))

/-- `const clampedRadius = Math.min(r, w / 2, h / 2)` from the source. -/
def clampedRadius (w h r : ℚ) : ℚ := min r (min (w / 2) (h / 2))

/-- `startTR` from the source: where the top-right corner's curves begin. -/
def startTR (w h r : ℚ) : Vec2 := (w - clampedRadius w h r, 0)

/-- `startBR` from the source: where the bottom-right corner's curves begin. -/
def startBR (w h r : ℚ) : Vec2 := (w, h - clampedRadius w h r)

/-- `startBL` from the source: where the bottom-left corner's curves begin. -/
def startBL (w h r : ℚ) : Vec2 := (clampedRadius w h r, h)

/-- `startTL` from the source: where the top-left corner's curves begin. -/
def startTL (w h r : ℚ) : Vec2 := (0, clampedRadius w h r)

/-- The command sequence built by `getSquirclePath`: move to `(r, 0)`, then
for each corner a line to its start point followed by its three curves, in
the source's order (top-right `k=0`, bottom-right `k=3`, bottom-left `k=2`,
top-left `k=1`).  Empty when either dimension is zero. -/
def squircleCmds (w h r : ℚ) : List PathCmd :=
  if w = 0 ∨ h = 0 then []
  else
    let cr := clampedRadius w h r
    PathCmd.move (cr, 0) ::
      ((PathCmd.line (startTR w h r) :: cornerCurves (startTR w h r) 0 cr) ++
       (PathCmd.line (startBR w h r) :: cornerCurves (startBR w h r) 3 cr) ++
       (PathCmd.line (startBL w h r) :: cornerCurves (startBL w h r) 2 cr) ++
       (PathCmd.line (startTL w h r) :: cornerCurves (startTL w h r) 1 cr))

/-- Render a point as `x y`, as in the source's template literals. -/
def ptStr (p : Vec2) : String := qToStr p.1 ++ " " ++ qToStr p.2

/-- Render one command with the source's exact spacing: the initial `M` has no
leading space, every appended command carries one. -/
def renderCmd : PathCmd → String
  | .move p => "M " ++ ptStr p
  | .line p => " L " ++ ptStr p
  | .curve a b t => " C " ++ ptStr a ++ ", " ++ ptStr b ++ ", " ++ ptStr t

/-- Concatenate rendered commands in order. -/
def renderCmds : List PathCmd → String
  | [] => ""
  | c :: l => renderCmd c ++ renderCmds l

/-- `getSquirclePath` from the source: empty string when a dimension is zero,
otherwise the rendered command sequence closed with `Z`. -/
def getSquirclePath (w h r : ℚ) : String :=
  if w = 0 ∨ h = 0 then "" else renderCmds (squircleCmds w h r) ++ " Z"

/-- The record argument form of `getSquirclePath`. -/
structure SquirclePathOptions where
  width : ℚ
  height : ℚ
  radius : ℚ
  deriving DecidableEq, Repr

/-- The two accepted argument shapes of the overloaded `getSquirclePath`. -/
inductive SquircleArgs where
  | positional (width height radius : ℚ)
  | record (options : SquirclePathOptions)
  deriving DecidableEq, Repr

/-- The overloaded entry point: both shapes normalize to one internal triple
`(w, h, r)` before the shared algorithm runs, exactly as the source's
`typeof widthOrOptions === 'object'` branch does. -/
def getSquirclePathArgs (a : SquircleArgs) : String :=
  let t : ℚ × ℚ × ℚ :=
    match a with
    | .record o => (o.width, o.height, o.radius)
    | .positional w h r => (w, h, r)
  getSquirclePath t.1 t.2.1 t.2.2

/-! ## Derived renderers (`getSquircleSVG`, `getSquircleDataUri`)

`encodeURIComponent` / `decodeURIComponent` are the JavaScript built-ins the
source calls.  They are modelled at the character level, faithful for code
points below 128 — which covers every string this library produces, since the
generator emits only ASCII. -/

/-- `getSquircleSVG` from the source: a standalone SVG document wrapping the
generated path as a filled shape sized to the given dimensions. -/
def getSquircleSVG (w h r : ℚ) : String :=
  "<svg xmlns=\"http://www.w3.org/2000/svg\" width=\"" ++ qToStr w ++
    "\" height=\"" ++ qToStr h ++ "\"><path d=\"" ++ getSquirclePath w h r ++
    "\" fill=\"black\" /></svg>"

/-- The characters `encodeURIComponent` leaves unescaped: ASCII letters,
digits, and the marks `- _ . ! ~ * ' ( )`. -/
def isUriUnescaped (c : Char) : Bool :=
  (65 ≤ c.toNat && c.toNat ≤ 90) || (97 ≤ c.toNat && c.toNat ≤ 122) ||
    (48 ≤ c.toNat && c.toNat ≤ 57) ||
    ['-', '_', '.', '!', '~', '*', '\'', '(', ')'].contains c

/-- Uppercase hexadecimal digit for `n < 16` (the case JS emits). -/
def hexChar (n : Nat) : Char := if n < 10 then Char.ofNat (48 + n) else Char.ofNat (55 + n)

/-- Percent-encoding of one character: kept verbatim when unescaped, else
`%XX` (faithful to the built-in for code points below 128). -/
def encodeCharList (c : Char) : List Char :=
  if isUriUnescaped c then [c] else ['%', hexChar (c.toNat / 16), hexChar (c.toNat % 16)]

/-- The `encodeURIComponent` built-in on ASCII content. -/
def encodeURIComponent (s : String) : String :=
  String.mk (s.data.flatMap encodeCharList)

/-- Value of a hexadecimal digit character, if it is one (JS accepts both
cases when decoding). -/
def hexVal (c : Char) : Option Nat :=
  if 48 ≤ c.toNat ∧ c.toNat ≤ 57 then some (c.toNat - 48)
  else if 65 ≤ c.toNat ∧ c.toNat ≤ 70 then some (c.toNat - 55)
  else if 97 ≤ c.toNat ∧ c.toNat ≤ 102 then some (c.toNat - 87)
  else none

/-- Percent-decoding of a character list; `none` models the `URIError` the
built-in throws on a malformed escape sequence. -/
def percentDecodeList : List Char → Option (List Char)
  | [] => some []
  | c :: rest =>
    if c = '%' then
      match rest with
      | h :: l :: t =>
        match hexVal h, hexVal l with
        | some a, some b => (percentDecodeList t).map fun d => Char.ofNat (16 * a + b) :: d
        | _, _ => none
      | _ => none
    else (percentDecodeList rest).map fun d => c :: d

/-- The `decodeURIComponent` built-in on ASCII content. -/
def decodeURIComponent (s : String) : Option String :=
  (percentDecodeList s.data).map String.mk

/-- `getSquircleDataUri` from the source: the percent-encoded (not base64)
data reference wrapping the SVG document. -/
def getSquircleDataUri (w h r : ℚ) : String :=
  "data:image/svg+xml," ++ encodeURIComponent (getSquircleSVG w h r)

/-! ## Capability queries (`supportsClipPath`, `hasResizeObserver`)

The hosting environment is reified as a record: which globals exist, and the
`CSS.supports` primitive as a fallible function (`Except` models a throwing
feature-detection primitive). -/

/-- The hosting environment as the capability queries observe it. -/
structure BrowserEnv where
  /-- Whether the `window` global is defined. -/
  hasWindow : Bool
  /-- Whether the `CSS` global is defined. -/
  hasCSS : Bool
  /-- Whether `CSS.supports` is present (truthy). -/
  hasSupportsFn : Bool
  /-- The `CSS.supports` primitive; `Except.error` models it throwing. -/
  cssSupports : String → String → Except String Bool
  /-- Whether the `ResizeObserver` global is defined. -/
  hasResizeObserverGlobal : Bool

/-- A JavaScript `try { return e } catch { return false }` around a fallible
boolean expression. -/
def tryCatchFalse (x : Except String Bool) : Bool :=
  match x with
  | .ok b => b
  | .error _ => false

/-- `supportsClipPath` from the source: `false` without `window`, `false`
without `CSS` or `CSS.supports`, otherwise the guarded feature probe. -/
def supportsClipPath (env : BrowserEnv) : Bool :=
  if !env.hasWindow then false
  else if !env.hasCSS || !env.hasSupportsFn then false
  else tryCatchFalse (env.cssSupports "clip-path" "path(\"M0 0\")")

/-- `hasResizeObserver` from the source. -/
def hasResizeObserver (env : BrowserEnv) : Bool :=
  env.hasWindow && env.hasResizeObserverGlobal

/-! ## DOM binder (`dom.ts`: `createSquircleStyles`, `applySquircle`) -/

/-- `ApplySquircleOptions` from the source, with its defaults. -/
structure ApplySquircleOptions where
  /-- Corner radius in pixels. -/
  radius : ℚ
  /-- Border width in pixels. -/
  borderWidth : ℚ := 0
  /-- Border color. -/
  borderColor : String := "currentColor"

/-- `SquircleStyles` from the source: the optional fields a style object can
carry. -/
structure SquircleStyles where
  position : String
  clipPath : Option String := none
  WebkitClipPath : Option String := none
  borderRadius : Option String := none
  overflow : Option String := none
  deriving DecidableEq, Repr

/-- `createSquircleStyles` from the source, with the capability query's
result passed explicitly (`supports`): a precise `clip-path: path(...)` pair
when supported and both dimensions are positive, else the
`border-radius` / `overflow: hidden` fallback. -/
def createSquircleStyles (supports : Bool) (width height : ℚ)
    (options : ApplySquircleOptions) : SquircleStyles :=
  if supports ∧ width > 0 ∧ height > 0 then
    { position := "relative"
      clipPath := some ("path('" ++ getSquirclePath width height options.radius ++ "')")
      WebkitClipPath := some ("path('" ++ getSquirclePath width height options.radius ++ "')") }
  else
    { position := "relative"
      borderRadius := some (qToStr options.radius ++ "px")
      overflow := some "hidden" }

/-- The border overlay `applySquircle` draws in precise mode: an SVG child
tracing the identical contour. -/
structure OverlaySVG where
  /-- The `d` attribute of the overlay's path. -/
  pathD : String
  /-- The `stroke-width` attribute (doubled border width). -/
  strokeWidth : ℚ
  /-- The `stroke` attribute. -/
  stroke : String
  deriving DecidableEq, Repr

/-- The mutable state of a bound element that `applySquircle.updateStyles`
reads and writes: measured size plus the inline style fields it touches and
the optional overlay child. -/
structure ElemState where
  offsetWidth : ℚ
  offsetHeight : ℚ
  position : Option String := none
  clipPath : Option String := none
  WebkitClipPath : Option String := none
  borderRadius : Option String := none
  overflow : Option String := none
  border : Option String := none
  overlay : Option OverlaySVG := none

/-- One synchronization pass (`updateStyles` inside `applySquircle`), with the
memoized capability result passed explicitly: skip on a zero-sized surface;
in precise mode set the clip pair (and create/update the overlay when a
border is requested); in fallback mode set plain `border-radius`,
`overflow: hidden` and, when requested, a uniform solid border. -/
def updateStyles (isSupported : Bool) (options : ApplySquircleOptions)
    (el : ElemState) : ElemState :=
  if el.offsetWidth = 0 ∨ el.offsetHeight = 0 then el
  else if isSupported then
    let pathData := getSquirclePath el.offsetWidth el.offsetHeight options.radius
    let el' := { el with
      position := some "relative"
      clipPath := some ("path('" ++ pathData ++ "')")
      WebkitClipPath := some ("path('" ++ pathData ++ "')") }
    if options.borderWidth > 0 then
      let ov : OverlaySVG :=
        { pathD := pathData
          strokeWidth := options.borderWidth * 2
          stroke := options.borderColor }
      { el' with overlay := some ov }
    else el'
  else
    let el' := { el with
      position := some "relative"
      borderRadius := some (qToStr options.radius ++ "px")
      overflow := some "hidden" }
    if options.borderWidth > 0 then
      { el' with border := some (qToStr options.borderWidth ++ "px solid " ++ options.borderColor) }
    else el'

/-! ## Teardown (`applySquircle`'s cleanup and the web component's
`disconnectedCallback`) -/

/-- The registrations a binding holds after `applySquircle` returns: the
optional `ResizeObserver`, the `window` resize listener, and the border
overlay.  `overlay = none` models `svgOverlay === null` (a bind that never
created an overlay, e.g. on a zero-sized surface); `overlay = some b` models
an existing overlay node where `b` says whether it currently has a parent
(`svgOverlay.parentNode`). -/
structure BindingState where
  /-- A `ResizeObserver` exists and is observing (null-safe `?.disconnect`). -/
  observerConnected : Bool
  /-- The `window` `resize` listener is registered. -/
  resizeListenerActive : Bool
  /-- The overlay node, if created, and whether it is attached to a parent. -/
  overlay : Option Bool
  deriving DecidableEq, Repr

/-- `observer?.disconnect()`: null-safe, idempotent on the DOM side. -/
def disconnectObserver (s : BindingState) : BindingState :=
  { s with observerConnected := false }

/-- `window.removeEventListener('resize', updateStyles)`: removing an
unregistered listener is a no-op. -/
def removeResizeListener (s : BindingState) : BindingState :=
  { s with resizeListenerActive := false }

/-- `parentNode.removeChild(node)`: detaches the overlay; on a node that is
not currently a child this DOM operation throws `NotFoundError`. -/
def removeOverlayChild (s : BindingState) : Except String BindingState :=
  match s.overlay with
  | some true => .ok { s with overlay := some false }
  | _ => .error "NotFoundError"

/-- The cleanup closure returned by `applySquircle`: disconnect the observer,
remove the window listener, and remove the overlay only under the source's
`svgOverlay && svgOverlay.parentNode` guard. -/
def cleanup (s : BindingState) : Except String BindingState :=
  let s1 := removeResizeListener (disconnectObserver s)
  if s1.overlay = some true then removeOverlayChild s1
  else .ok s1

/-! ## Helper functions for stating the claims -/

/-- The points a command makes the pen visit (control points included). -/
def curvePoints : PathCmd → List Vec2
  | .move p => [p]
  | .line p => [p]
  | .curve a b t => [a, b, t]

/-- The emitted coordinates of one corner's three curves. -/
def cornerPoints (start : Vec2) (k : Nat) (r : ℚ) : List Vec2 :=
  (cornerCurves start k r).flatMap curvePoints

/-- The endpoint of the final cubic Bezier segment of a command list. -/
def lastCurveTarget (l : List PathCmd) : Option Vec2 :=
  match l.getLast? with
  | some (.curve _ _ t) => some t
  | _ => none

/-! ## Shared lemmas -/

lemma squircleCmds_of_zero {w h : ℚ} (r : ℚ) (hz : w = 0 ∨ h = 0) :
    squircleCmds w h r = [] := by
  simp [squircleCmds, hz]

lemma getSquirclePath_of_zero {w h : ℚ} (r : ℚ) (hz : w = 0 ∨ h = 0) :
    getSquirclePath w h r = "" := by
  simp [getSquirclePath, hz]

lemma squircleCmds_of_pos {w h : ℚ} (r : ℚ) (hw : w ≠ 0) (hh : h ≠ 0) :
    squircleCmds w h r =
      PathCmd.move (clampedRadius w h r, 0) ::
        ((PathCmd.line (startTR w h r) :: cornerCurves (startTR w h r) 0 (clampedRadius w h r)) ++
         (PathCmd.line (startBR w h r) :: cornerCurves (startBR w h r) 3 (clampedRadius w h r)) ++
         (PathCmd.line (startBL w h r) :: cornerCurves (startBL w h r) 2 (clampedRadius w h r)) ++
         (PathCmd.line (startTL w h r) :: cornerCurves (startTL w h r) 1 (clampedRadius w h r))) := by
  simp [squircleCmds, hw, hh]

lemma getSquirclePath_of_pos {w h : ℚ} (r : ℚ) (hw : w ≠ 0) (hh : h ≠ 0) :
    getSquirclePath w h r = renderCmds (squircleCmds w h r) ++ " Z" := by
  simp [getSquirclePath, hw, hh]

/-! ## Claims -/

/-- C2: for every width, height and radius (with a nonzero surface, so a
contour exists), the generator clamps the effective radius to
`min(radius, width/2, height/2)` and the contour starts with a move-to at
`(r, 0)`; in particular `generate(40, 100, 50)` and `generate(40, 100, 20)`
both begin with the move-to coordinates `(20, 0)`. -/
theorem generate_clamps_radius_and_starts_at_r0 (w h r : ℚ) (hw : w ≠ 0) (hh : h ≠ 0) :
    (squircleCmds w h r).head? = some (.move (min r (min (w / 2) (h / 2)), 0)) ∧
    (squircleCmds 40 100 50).head? = some (.move (20, 0)) ∧
    (squircleCmds 40 100 20).head? = some (.move (20, 0)) := by
  refine ⟨?_, ?_, ?_⟩
  · rw [squircleCmds_of_pos r hw hh]
    rfl
  · rw [squircleCmds_of_pos 50 (by norm_num) (by norm_num)]
    norm_num [clampedRadius]
  · rw [squircleCmds_of_pos 20 (by norm_num) (by norm_num)]
    norm_num [clampedRadius]

/-- Witness for C2 at the concrete size 40×100 with radius 50. -/
theorem generate_clamps_radius_and_starts_at_r0_witness :
    (squircleCmds 40 100 50).head? = some (.move (min 50 (min (40 / 2) (100 / 2)), 0)) ∧
    (squircleCmds 40 100 50).head? = some (.move (20, 0)) ∧
    (squircleCmds 40 100 20).head? = some (.move (20, 0)) :=
  generate_clamps_radius_and_starts_at_r0 40 100 50 (by norm_num) (by norm_num)

/-- C3: for every radius, if width or height is zero then the generator
returns exactly the empty string and emits no command at all — no partial
contour. -/
theorem generate_zero_dims_empty (w h r : ℚ) (hz : w = 0 ∨ h = 0) :
    getSquirclePath w h r = "" ∧ squircleCmds w h r = [] :=
  ⟨getSquirclePath_of_zero r hz, squircleCmds_of_zero r hz⟩

/-- Witness for C3 at width 0, height 5, radius 3. -/
theorem generate_zero_dims_empty_witness :
    getSquirclePath 0 5 3 = "" ∧ squircleCmds 0 5 3 = [] :=
  generate_zero_dims_empty 0 5 3 (Or.inl rfl)

/-- C6: the positional triple and the named-field record entry shapes
normalize to the same internal triple and produce identical output strings. -/
theorem overload_shapes_agree (w h r : ℚ) :
    getSquirclePathArgs (.positional w h r) =
      getSquirclePathArgs (.record ⟨w, h, r⟩) := rfl

/-- C4: for every positive width and height and every radius, the emitted
coordinates of the bottom-right, bottom-left and top-left corners are the
image of the top-right corner's emitted coordinates under the exact discrete
quarter-turn rotation the source assigns to that corner (`k = 3, 2, 1`
respectively) about the corner's own anchor — rotation applied to the
anchor-relative vector, then translated to the corner's start point. -/
theorem corners_are_rotated_copies (w h r : ℚ) (hw : 0 < w) (hh : 0 < h) :
    (cornerPoints (startBR w h r) 3 (clampedRadius w h r) =
      (cornerPoints (startTR w h r) 0 (clampedRadius w h r)).map
        (fun p => vecAdd (startBR w h r) (rotBy90 (vecSub p (startTR w h r)) 3))) ∧
    (cornerPoints (startBL w h r) 2 (clampedRadius w h r) =
      (cornerPoints (startTR w h r) 0 (clampedRadius w h r)).map
        (fun p => vecAdd (startBL w h r) (rotBy90 (vecSub p (startTR w h r)) 2))) ∧
    (cornerPoints (startTL w h r) 1 (clampedRadius w h r) =
      (cornerPoints (startTR w h r) 0 (clampedRadius w h r)).map
        (fun p => vecAdd (startTL w h r) (rotBy90 (vecSub p (startTR w h r)) 1))) := by
  refine ⟨?_, ?_, ?_⟩ <;>
    simp [cornerPoints, cornerCurves, squircleBezierApproximation, curvePoints,
      vecAdd, vecMul, vecSub, rotBy90, Prod.ext_iff]

/-- Witness for C4 at the concrete size 100×100 with radius 20. -/
theorem corners_are_rotated_copies_witness :
    (cornerPoints (startBR 100 100 20) 3 (clampedRadius 100 100 20) =
      (cornerPoints (startTR 100 100 20) 0 (clampedRadius 100 100 20)).map
        (fun p => vecAdd (startBR 100 100 20) (rotBy90 (vecSub p (startTR 100 100 20)) 3))) ∧
    (cornerPoints (startBL 100 100 20) 2 (clampedRadius 100 100 20) =
      (cornerPoints (startTR 100 100 20) 0 (clampedRadius 100 100 20)).map
        (fun p => vecAdd (startBL 100 100 20) (rotBy90 (vecSub p (startTR 100 100 20)) 2))) ∧
    (cornerPoints (startTL 100 100 20) 1 (clampedRadius 100 100 20) =
      (cornerPoints (startTR 100 100 20) 0 (clampedRadius 100 100 20)).map
        (fun p => vecAdd (startTL 100 100 20) (rotBy90 (vecSub p (startTR 100 100 20)) 1))) :=
  corners_are_rotated_copies 100 100 20 (by norm_num) (by norm_num)

lemma renderCmds_move_cons (p : Vec2) (l : List PathCmd) (t : String) :
    renderCmds (PathCmd.move p :: l) ++ t = "M " ++ (ptStr p ++ (renderCmds l ++ t)) := by
  simp [renderCmds, renderCmd, String.append_assoc]

/-- C5: for every positive width and height and every radius `≥ 0`, the
contour is a closed loop: the command list begins with a move-to at
`(r, 0)` (the rendered string begins with `M`), the rendered string ends
with the explicit close command `Z`, and the endpoint of the last corner's
final cubic Bezier segment is exactly the starting point `(r, 0)`. -/
theorem contour_is_closed_loop (w h r : ℚ) (hw : 0 < w) (hh : 0 < h) (hr : 0 ≤ r) :
    (squircleCmds w h r).head? = some (.move (clampedRadius w h r, 0)) ∧
    lastCurveTarget (squircleCmds w h r) = some (clampedRadius w h r, 0) ∧
    (∃ s, getSquirclePath w h r = "M " ++ s) ∧
    (∃ s, getSquirclePath w h r = s ++ " Z") := by
  have hw' := ne_of_gt hw
  have hh' := ne_of_gt hh
  refine ⟨?_, ?_, ?_, ?_⟩
  · rw [squircleCmds_of_pos r hw' hh']
    rfl
  · rw [squircleCmds_of_pos r hw' hh']
    simp [lastCurveTarget, cornerCurves, squircleBezierApproximation, startTL,
      vecAdd, vecMul, rotBy90]
  · rw [getSquirclePath_of_pos r hw' hh', squircleCmds_of_pos r hw' hh',
      renderCmds_move_cons]
    exact ⟨_, rfl⟩
  · rw [getSquirclePath_of_pos r hw' hh']
    exact ⟨_, rfl⟩

/-- Witness for C5 at the concrete size 100×100 with radius 20. -/
theorem contour_is_closed_loop_witness :
    (squircleCmds 100 100 20).head? = some (.move (clampedRadius 100 100 20, 0)) ∧
    lastCurveTarget (squircleCmds 100 100 20) = some (clampedRadius 100 100 20, 0) ∧
    (∃ s, getSquirclePath 100 100 20 = "M " ++ s) ∧
    (∃ s, getSquirclePath 100 100 20 = s ++ " Z") :=
  contour_is_closed_loop 100 100 20 (by norm_num) (by norm_num) (by norm_num)

/-- C1: for a surface with positive width and height, when the capability
query returns `true` both the style factory and the binder's synchronization
pass apply the precise clip pair (standard and vendor-prefixed) whose
contour equals `getSquirclePath width height radius`; when it returns
`false` they apply the plain `border-radius` equal to the resolved radius in
pixels with `overflow: hidden`, and never set a clip contour (the element's
clip fields stay `none`).  For these entry points the binder's resolved
(effective) radius is exactly `options.radius`. -/
theorem binder_precise_and_fallback_modes (w h : ℚ) (opts : ApplySquircleOptions)
    (el : ElemState) (hw : 0 < w) (hh : 0 < h)
    (hew : el.offsetWidth = w) (heh : el.offsetHeight = h)
    (hclip : el.clipPath = none) (hwclip : el.WebkitClipPath = none) :
    (createSquircleStyles true w h opts).clipPath =
      some ("path('" ++ getSquirclePath w h opts.radius ++ "')") ∧
    (createSquircleStyles true w h opts).WebkitClipPath =
      some ("path('" ++ getSquirclePath w h opts.radius ++ "')") ∧
    (createSquircleStyles false w h opts).clipPath = none ∧
    (createSquircleStyles false w h opts).WebkitClipPath = none ∧
    (createSquircleStyles false w h opts).borderRadius = some (qToStr opts.radius ++ "px") ∧
    (createSquircleStyles false w h opts).overflow = some "hidden" ∧
    (updateStyles true opts el).clipPath =
      some ("path('" ++ getSquirclePath w h opts.radius ++ "')") ∧
    (updateStyles true opts el).WebkitClipPath =
      some ("path('" ++ getSquirclePath w h opts.radius ++ "')") ∧
    (updateStyles false opts el).borderRadius = some (qToStr opts.radius ++ "px") ∧
    (updateStyles false opts el).overflow = some "hidden" ∧
    (updateStyles false opts el).clipPath = none ∧
    (updateStyles false opts el).WebkitClipPath = none := by
  have hw0 : w ≠ 0 := ne_of_gt hw
  have hh0 : h ≠ 0 := ne_of_gt hh
  by_cases hb : opts.borderWidth > 0 <;>
    simp [createSquircleStyles, updateStyles, hw, hh, hw0, hh0, hew, heh, hclip, hwclip, hb]

/-- Witness for C1 on a 100×100 surface with radius 20 and no border. -/
theorem binder_precise_and_fallback_modes_witness :
    (createSquircleStyles true 100 100 { radius := 20 }).clipPath =
      some ("path('" ++ getSquirclePath 100 100 20 ++ "')") ∧
    (createSquircleStyles true 100 100 { radius := 20 }).WebkitClipPath =
      some ("path('" ++ getSquirclePath 100 100 20 ++ "')") ∧
    (createSquircleStyles false 100 100 { radius := 20 }).clipPath = none ∧
    (createSquircleStyles false 100 100 { radius := 20 }).WebkitClipPath = none ∧
    (createSquircleStyles false 100 100 { radius := 20 }).borderRadius =
      some (qToStr 20 ++ "px") ∧
    (createSquircleStyles false 100 100 { radius := 20 }).overflow = some "hidden" ∧
    (updateStyles true { radius := 20 } { offsetWidth := 100, offsetHeight := 100 }).clipPath =
      some ("path('" ++ getSquirclePath 100 100 20 ++ "')") ∧
    (updateStyles true { radius := 20 } { offsetWidth := 100, offsetHeight := 100 }).WebkitClipPath =
      some ("path('" ++ getSquirclePath 100 100 20 ++ "')") ∧
    (updateStyles false { radius := 20 } { offsetWidth := 100, offsetHeight := 100 }).borderRadius =
      some (qToStr 20 ++ "px") ∧
    (updateStyles false { radius := 20 } { offsetWidth := 100, offsetHeight := 100 }).overflow =
      some "hidden" ∧
    (updateStyles false { radius := 20 } { offsetWidth := 100, offsetHeight := 100 }).clipPath =
      none ∧
    (updateStyles false { radius := 20 } { offsetWidth := 100, offsetHeight := 100 }).WebkitClipPath =
      none :=
  binder_precise_and_fallback_modes 100 100 { radius := 20 }
    { offsetWidth := 100, offsetHeight := 100 }
    (by norm_num) (by norm_num) rfl rfl rfl rfl

/-- C8: the clip-contour capability query is a total boolean function (the
embedding never throws); it returns `false` whenever the environment lacks
`window`, `CSS` or `CSS.supports`, returns `false` whenever the underlying
feature-detection primitive throws, and returns `true` only when that
primitive reports support. -/
theorem capability_query_fail_closed (env : BrowserEnv) :
    (env.hasWindow = false ∨ env.hasCSS = false ∨ env.hasSupportsFn = false →
      supportsClipPath env = false) ∧
    (∀ e, env.cssSupports "clip-path" "path(\"M0 0\")" = .error e →
      supportsClipPath env = false) ∧
    (supportsClipPath env = true →
      env.hasWindow = true ∧ env.cssSupports "clip-path" "path(\"M0 0\")" = .ok true) := by
  cases hwin : env.hasWindow <;> cases hcss : env.hasCSS <;> cases hfn : env.hasSupportsFn <;>
    cases hres : env.cssSupports "clip-path" "path(\"M0 0\")" <;>
      simp_all [supportsClipPath, tryCatchFalse]

/-- Witness for C8 in a headless environment whose feature-detection
primitive moreover throws. -/
theorem capability_query_fail_closed_witness :
    supportsClipPath
      { hasWindow := false, hasCSS := false, hasSupportsFn := false,
        cssSupports := fun _ _ => .error "unknown feature",
        hasResizeObserverGlobal := false } = false :=
  (capability_query_fail_closed
    { hasWindow := false, hasCSS := false, hasSupportsFn := false,
      cssSupports := fun _ _ => .error "unknown feature",
      hasResizeObserverGlobal := false }).1 (Or.inl rfl)

/-- C9: the teardown returned by `bind` is idempotent and total: from any
binding state (including one where the bind never created an overlay), one
cleanup call succeeds, a second call on the resulting state succeeds and is
a no-op, both notification channels end up deregistered and no overlay node
remains attached. -/
theorem unbind_idempotent_and_total (s : BindingState) :
    ∃ s', cleanup s = .ok s' ∧ cleanup s' = .ok s' ∧
      s'.observerConnected = false ∧ s'.resizeListenerActive = false ∧
      s'.overlay ≠ some true := by
  rcases hov : s.overlay with _ | b
  · refine ⟨⟨false, false, none⟩, ?_, ?_, rfl, rfl, by simp⟩ <;>
      simp [cleanup, removeResizeListener, disconnectObserver, hov]
  · cases b
    · refine ⟨⟨false, false, some false⟩, ?_, ?_, rfl, rfl, by simp⟩ <;>
        simp [cleanup, removeResizeListener, disconnectObserver, hov]
    · refine ⟨⟨false, false, some false⟩, ?_, ?_, rfl, rfl, by simp⟩ <;>
        simp [cleanup, removeResizeListener, disconnectObserver, removeOverlayChild, hov]

/-! ## ASCII content and the percent-encoding round trip -/

/-- Every character of the string has a code point below 128.  All strings
the generator produces satisfy this, which is what makes the character-level
model of the percent-encoding built-ins faithful. -/
abbrev asciiStr (s : String) : Prop := ∀ c ∈ s.data, c.toNat < 128

lemma toNat_ofNat_of_valid {n : Nat} (h : n.isValidChar) : (Char.ofNat n).toNat = n := by
  simp [Char.ofNat, h, Char.toNat, Char.ofNatAux, UInt32.toNat, BitVec.toNat_ofNatLt]

lemma toNat_digitChar (d : Nat) : (digitChar d).toNat = 48 + d % 10 := by
  have hd := Nat.mod_lt d (y := 10) (by norm_num)
  exact toNat_ofNat_of_valid (by left; omega)

lemma asciiStr_append {a b : String} (ha : asciiStr a) (hb : asciiStr b) :
    asciiStr (a ++ b) := by
  intro c hc
  rw [String.data_append] at hc
  rcases List.mem_append.1 hc with h | h
  · exact ha c h
  · exact hb c h

lemma ascii_natChars (fuel n : Nat) : ∀ c ∈ natChars fuel n, c.toNat < 128 := by
  induction fuel generalizing n with
  | zero => intro c hc; simp [natChars] at hc
  | succ fuel ih =>
    intro c hc
    rw [natChars] at hc
    by_cases hn : n < 10
    · rw [if_pos hn] at hc
      simp at hc
      subst hc
      rw [toNat_digitChar]
      omega
    · rw [if_neg hn] at hc
      rcases List.mem_append.1 hc with h | h
      · exact ih _ c h
      · simp at h
        subst h
        rw [toNat_digitChar]
        omega

lemma asciiStr_natStr (n : Nat) : asciiStr (natStr n) := ascii_natChars _ n

lemma ascii_fracChars (fuel rem den : Nat) : ∀ c ∈ fracChars fuel rem den, c.toNat < 128 := by
  induction fuel generalizing rem with
  | zero => intro c hc; simp [fracChars] at hc
  | succ fuel ih =>
    intro c hc
    match rem with
    | 0 => simp [fracChars] at hc
    | rem + 1 =>
      rw [fracChars] at hc
      rcases List.mem_cons.1 hc with h | h
      · subst h
        rw [toNat_digitChar]
        omega
      · exact ih _ c h

lemma asciiStr_qToStr (q : ℚ) : asciiStr (qToStr q) := by
  rw [qToStr]
  by_cases hz : q.num.natAbs % q.den = 0 <;>
    by_cases hneg : q < 0 <;>
      simp only [hz, hneg, if_true, if_false, if_pos, if_neg, not_false_iff] <;>
        repeat' apply asciiStr_append
  all_goals
    first
      | exact asciiStr_natStr _
      | exact ascii_fracChars _ _ _
      | decide

lemma asciiStr_ptStr (p : Vec2) : asciiStr (ptStr p) :=
  asciiStr_append (asciiStr_append (asciiStr_qToStr _) (by decide)) (asciiStr_qToStr _)

lemma asciiStr_renderCmd (c : PathCmd) : asciiStr (renderCmd c) := by
  cases c <;> simp only [renderCmd] <;> repeat' apply asciiStr_append
  all_goals first | exact asciiStr_qToStr _ | exact asciiStr_ptStr _ | decide

lemma asciiStr_renderCmds (l : List PathCmd) : asciiStr (renderCmds l) := by
  induction l with
  | nil => decide
  | cons c t ih => exact asciiStr_append (asciiStr_renderCmd c) ih

lemma asciiStr_getSquirclePath (w h r : ℚ) : asciiStr (getSquirclePath w h r) := by
  rw [getSquirclePath]
  by_cases hz : w = 0 ∨ h = 0
  · rw [if_pos hz]; decide
  · rw [if_neg hz]
    exact asciiStr_append (asciiStr_renderCmds _) (by decide)

lemma asciiStr_getSquircleSVG (w h r : ℚ) : asciiStr (getSquircleSVG w h r) := by
  rw [getSquircleSVG]
  repeat' apply asciiStr_append
  all_goals
    first
      | exact asciiStr_qToStr _
      | exact asciiStr_getSquirclePath _ _ _
      | decide

lemma hexVal_hexChar {n : Nat} (h : n < 16) : hexVal (hexChar n) = some n := by
  by_cases h10 : n < 10
  · have ht : (hexChar n).toNat = 48 + n := by
      rw [hexChar, if_pos h10]; exact toNat_ofNat_of_valid (by left; omega)
    unfold hexVal
    rw [ht, if_pos (by omega)]
    congr 1
    omega
  · have ht : (hexChar n).toNat = 55 + n := by
      rw [hexChar, if_neg h10]; exact toNat_ofNat_of_valid (by left; omega)
    unfold hexVal
    rw [ht, if_neg (by omega), if_pos (by omega)]
    congr 1
    omega

lemma ne_percent_of_unescaped {c : Char} (h : isUriUnescaped c = true) : c ≠ '%' := by
  intro he
  subst he
  exact absurd h (by decide)

lemma percentDecodeList_cons_ne {c : Char} (X : List Char) (hc : c ≠ '%') :
    percentDecodeList (c :: X) = (percentDecodeList X).map fun d => c :: d := by
  rw [percentDecodeList.eq_def]
  simp [hc]

/-- Percent-decoding inverts percent-encoding on ASCII content. -/
lemma percentDecode_encode (l : List Char) (h : ∀ c ∈ l, c.toNat < 128) :
    percentDecodeList (l.flatMap encodeCharList) = some l := by
  induction l with
  | nil => rfl
  | cons c rest ih =>
    have hc : c.toNat < 128 := h c (List.mem_cons_self c rest)
    have hrest : ∀ x ∈ rest, x.toNat < 128 := fun x hx => h x (List.mem_cons_of_mem c hx)
    rw [List.flatMap_cons]
    by_cases hu : isUriUnescaped c
    · rw [encodeCharList, if_pos hu, List.singleton_append,
        percentDecodeList_cons_ne _ (ne_percent_of_unescaped hu), ih hrest]
      rfl
    · rw [encodeCharList, if_neg hu, List.cons_append, List.cons_append,
        List.cons_append, List.nil_append, percentDecodeList.eq_2, if_pos rfl,
        hexVal_hexChar (by omega), hexVal_hexChar (by omega), ih hrest]
      simp [Nat.div_add_mod, Char.ofNat_toNat]

/-- C7: for every width, height and radius, the embeddable reference is the
prefix `data:image/svg+xml,` followed by the percent-encoding (not base64)
of the SVG document, and decoding that encoding recovers the document
exactly — decode after encode is the identity on the vector document
string. -/
theorem datauri_encodes_svg_and_decodes_back (w h r : ℚ) :
    getSquircleDataUri w h r =
      "data:image/svg+xml," ++ encodeURIComponent (getSquircleSVG w h r) ∧
    decodeURIComponent (encodeURIComponent (getSquircleSVG w h r)) =
      some (getSquircleSVG w h r) := by
  refine ⟨rfl, ?_⟩
  rw [decodeURIComponent, encodeURIComponent]
  rw [show (String.mk ((getSquircleSVG w h r).data.flatMap encodeCharList)).data
      = (getSquircleSVG w h r).data.flatMap encodeCharList from rfl]
  rw [percentDecode_encode _ (asciiStr_getSquircleSVG w h r)]
  rfl

lemma append_ne_empty_left {a : String} (b : String) (ha : a ≠ "") : a ++ b ≠ "" := by
  intro hab
  apply ha
  have hd := congrArg String.data hab
  rw [String.data_append] at hd
  rcases List.append_eq_nil.1 hd with ⟨h1, _⟩
  exact String.ext h1

/-- C10: on a degenerate surface (zero width or height) the derived
renderers are not empty even though the contour is: the SVG document keeps
its width/height attributes with an empty path `d` attribute, the data URI
is a non-empty percent-encoded reference wrapping that document, and only
the path generator itself returns the empty string. -/
theorem degenerate_renderers_not_empty (w h r : ℚ) (hz : w = 0 ∨ h = 0) :
    getSquircleSVG w h r =
      "<svg xmlns=\"http://www.w3.org/2000/svg\" width=\"" ++ qToStr w ++
        ("\" height=\"" ++ (qToStr h ++ "\"><path d=\"\" fill=\"black\" /></svg>")) ∧
    getSquirclePath w h r = "" ∧
    getSquircleSVG w h r ≠ "" ∧
    getSquircleDataUri w h r ≠ "" ∧
    (∃ s, getSquircleDataUri w h r = "data:image/svg+xml," ++ s) := by
  refine ⟨?_, getSquirclePath_of_zero r hz, ?_, ?_, ⟨_, rfl⟩⟩
  · rw [getSquircleSVG, getSquirclePath_of_zero r hz]
    simp [String.append_assoc]
  · rw [getSquircleSVG]
    rw [String.append_assoc, String.append_assoc, String.append_assoc, String.append_assoc,
      String.append_assoc]
    exact append_ne_empty_left _ (by decide)
  · rw [getSquircleDataUri]
    exact append_ne_empty_left _ (by decide)

/-- Witness for C10 at width 0, height 7, radius 3. -/
theorem degenerate_renderers_not_empty_witness :
    getSquircleSVG 0 7 3 =
      "<svg xmlns=\"http://www.w3.org/2000/svg\" width=\"" ++ qToStr 0 ++
        ("\" height=\"" ++ (qToStr 7 ++ "\"><path d=\"\" fill=\"black\" /></svg>")) ∧
    getSquirclePath 0 7 3 = "" ∧
    getSquircleSVG 0 7 3 ≠ "" ∧
    getSquircleDataUri 0 7 3 ≠ "" ∧
    (∃ s, getSquircleDataUri 0 7 3 = "data:image/svg+xml," ++ s) :=
  degenerate_renderers_not_empty 0 7 3 (Or.inl rfl)

end Squircle
